import Mathlib

/-
Verification of the multi-document QA comparison program.

The development shallowly embeds the Python modules `model_config.py`,
`query_handler.py` and `document_loader.py`:

* module-level effects (environment-variable reads, the HTTP transport, the
  provider client invocation, wall-clock timing and the PDF parser) are passed
  in as explicit arguments, so every function is pure;
* Python floats are modelled as exact rationals (the pricing arithmetic is
  exact decimal arithmetic on these inputs);
* a Python exception propagating out of a function is modelled as
  `Except.error` carrying the exception message, a normal return as
  `Except.ok`;
* dictionaries with a known key set are modelled as structures with
  `Option`-valued fields (absent key = `none`), matching `dict.get(k, 0)` by
  `Option.getD`.
-/

namespace MultiDocQA

/-! ### Substring matching (the Python `in` operator on strings) -/

/-- Boolean test that `pat` occurs as a contiguous sublist of `s`. -/
def isInfixB (pat : List Char) : List Char → Bool
  | [] => pat.isPrefixOf []
  | a :: t => pat.isPrefixOf (a :: t) || isInfixB pat t

/-- `containsSub s pat` models the Python string test `pat in s`. -/
def containsSub (s pat : String) : Bool := isInfixB pat.data s.data

/-! ### `model_config.py` -/

/-- One entry of the `MODEL_PRICING` dict: per-million-token prices and a
display name. -/
structure Pricing where
  input : ℚ
  output : ℚ
  name : String

/-- The `MODEL_PRICING` dict literal of `model_config.py`, as an association
list in source order. -/
def MODEL_PRICING : List (String × Pricing) :=
  [ ("gpt-5", { input := 2.50, output := 10.00, name := "GPT-5" }),
    ("claude-sonnet-4-5-20250929",
      { input := 3.00, output := 15.00, name := "Claude Sonnet 4.5" }),
    ("deepseek-chat", { input := 0.28, output := 0.42, name := "DeepSeek v3.2-Exp" }),
    ("deepseek-chat-v3.1",
      { input := 0.55, output := 2.19, name := "DeepSeek v3.1-Terminus" }) ]

/-- Dictionary lookup `MODEL_PRICING[model_name]`, `none` when the key is
absent (Python would raise `KeyError`). -/
def findPricing (m : String) : Option Pricing :=
  List.lookup m MODEL_PRICING

/-- Which provider SDK class `get_model` instantiates. -/
inductive Provider where
  | openai
  | anthropic

/-- The configuration of the client object returned by `get_model`: the
constructor arguments of the `ChatOpenAI` / `ChatAnthropic` call. -/
structure ModelConfig where
  provider : Provider
  model : String
  temperature : ℚ
  api_key : Option String
  base_url : Option String

/-- Embedding of `get_model` from `model_config.py`.  `env` models `os.getenv`; the
`ValueError` raised for an unknown identifier is the `Except.error` case. -/
def get_model (env : String → Option String) (model_name : String) :
    Except String ModelConfig :=
  if model_name = "gpt-5" then
    .ok { provider := .openai, model := "gpt-5", temperature := 0,
          api_key := env "OPENAI_API_KEY", base_url := none }
  else if model_name = "claude-sonnet-4-5-20250929" then
    .ok { provider := .anthropic, model := "claude-sonnet-4-5-20250929", temperature := 0,
          api_key := env "ANTHROPIC_API_KEY", base_url := none }
  else if model_name = "deepseek-chat" then
    .ok { provider := .openai, model := "deepseek-chat", temperature := 0,
          api_key := env "DEEPSEEK_API_KEY", base_url := some "https://api.deepseek.com" }
  else if model_name = "deepseek-chat-v3.1" then
    .ok { provider := .openai, model := "deepseek-chat", temperature := 0,
          api_key := env "DEEPSEEK_API_KEY",
          base_url := some "https://api.deepseek.com/v3.1_terminus_expires_on_20251015" }
  else
    .error ("Unknown model: " ++ model_name)

/-- The fixed identifier set accepted by `get_model`. -/
def knownModels : List String :=
  ["gpt-5", "claude-sonnet-4-5-20250929", "deepseek-chat", "deepseek-chat-v3.1"]

/-- The arithmetic of `calculate_cost` once the pricing entry is in hand. -/
def costOf (pricing : Pricing) (input_tokens output_tokens : Nat) : ℚ :=
  (input_tokens : ℚ) / 1000000 * pricing.input +
    (output_tokens : ℚ) / 1000000 * pricing.output

/-- Embedding of `calculate_cost` from `model_config.py`; `none` models the `KeyError`
raised when the model is not in the pricing table. -/
def calculate_cost (model_name : String) (input_tokens output_tokens : Nat) : Option ℚ :=
  (findPricing model_name).map fun pricing => costOf pricing input_tokens output_tokens

/-- The `requests.get` outcome seen by `check_deepseek_balance`: an HTTP
status together with the result of `response.json()` (which can itself
raise on a malformed body). -/
structure HttpResponse where
  status : Nat
  json : Except String String

/-- Embedding of `check_deepseek_balance` from `model_config.py`.  `env` models
`os.getenv`; `http` is the outcome the transport would produce if the GET
request were issued.  The second component records whether the network call
was attempted at all. -/
def check_deepseek_balance (env : String → Option String)
    (http : Except String HttpResponse) : Option String × Bool :=
  match env "DEEPSEEK_API_KEY" with
  | none => (none, false)
  | some key =>
    if key = "" then (none, false)
    else
      match http with
      | .error _ => (none, true)
      | .ok resp =>
        if resp.status = 200 then
          match resp.json with
          | .ok body => (some body, true)
          | .error _ => (none, true)
        else (none, true)

/-! ### `query_handler.py` -/

/-- The `token_usage` entry of `response_metadata`: shape (a) of token usage. -/
structure TokenUsage where
  prompt_tokens : Option Nat
  completion_tokens : Option Nat

/-- The `usage_metadata` dict: shape (b), the unified LangChain format. -/
structure UsageMetadata where
  input_tokens : Option Nat
  output_tokens : Option Nat

/-- The provider response object returned by `model.invoke`.
`token_usage = none` models a response whose `response_metadata` lacks the
`token_usage` key (or lacks the attribute); `usage_metadata = none` models
a response without a `usage_metadata` attribute. -/
structure ModelResponse where
  content : String
  token_usage : Option TokenUsage
  usage_metadata : Option UsageMetadata

/-- The dict returned by `query_model`. -/
structure QueryResult where
  model : String
  response : String
  input_tokens : Nat
  output_tokens : Nat
  total_tokens : Nat
  cost : ℚ
  time : ℚ
  error : Option String

/-- The error-message rewriting performed in the `except` branch of
`query_model`: the `402`/`Insufficient Balance` test comes first, then the
`401`/`Unauthorized` test, otherwise the raw message passes through. -/
def classifyError (msg : String) : String :=
  if containsSub msg "402" || containsSub msg "Insufficient Balance" then
    "Insufficient Balance - Please add credits to your DeepSeek account at https://platform.deepseek.com"
  else if containsSub msg "401" || containsSub msg "Unauthorized" then
    "Invalid API key - Please check your API key in .env file"
  else msg

/-- The token-usage extraction of `query_model`: the `token_usage` entry of
`response_metadata` is consulted first, else `usage_metadata`, else both
counts are zero; inside each shape a missing key defaults to 0. -/
def extractUsage (resp : ModelResponse) : Nat × Nat :=
  match resp.token_usage with
  | some tu => (tu.prompt_tokens.getD 0, tu.completion_tokens.getD 0)
  | none =>
    match resp.usage_metadata with
    | some um => (um.input_tokens.getD 0, um.output_tokens.getD 0)
    | none => (0, 0)

/-- Embedding of `query_model` from `query_handler.py`.  `invokeResult` is the outcome of
`model.invoke(messages)` (a response or the message of a raised exception) and
`elapsed` the wall-clock time measurement.  `get_model` is called before the
`try` block, so its `ValueError` escapes as `Except.error`; the branch
bodies also index `MODEL_PRICING[model_name]`, whose `KeyError` would
likewise escape. -/
def query_model (env : String → Option String) (model_name : String)
    (invokeResult : Except String ModelResponse) (elapsed : ℚ) :
    Except String QueryResult :=
  match get_model env model_name with
  | .error e => .error e
  | .ok _ =>
    match invokeResult with
    | .ok resp =>
      let usage := extractUsage resp
      match findPricing model_name with
      | none => .error ("KeyError: " ++ model_name)
      | some pricing =>
        .ok { model := pricing.name,
              response := resp.content,
              input_tokens := usage.1,
              output_tokens := usage.2,
              total_tokens := usage.1 + usage.2,
              cost := costOf pricing usage.1 usage.2,
              time := elapsed,
              error := none }
    | .error e =>
      let error_msg := classifyError e
      match findPricing model_name with
      | none => .error ("KeyError: " ++ model_name)
      | some pricing =>
        .ok { model := pricing.name,
              response := "Error: " ++ error_msg,
              input_tokens := 0,
              output_tokens := 0,
              total_tokens := 0,
              cost := 0,
              time := elapsed,
              error := some error_msg }

/-! ### `document_loader.py` -/

/-- One PDF file as `load_documents` sees it: its filename and the
`page_content` of each parsed page. -/
structure PdfFile where
  name : String
  pages : List String

/-- The per-file text `"\n\n".join(page.page_content for page in pages)`. -/
def docText (f : PdfFile) : String := String.intercalate "\n\n" f.pages

/-- The chunk appended to the accumulator for one file: the literal
document header followed by the text of the file. -/
def docChunk (f : PdfFile) : String :=
  "\n\n=== Document: " ++ f.name ++ " ===\n\n" ++ docText f

/-- Filename order used by `sorted(pdf_files)`: lexicographic comparison of
the code points of the names. -/
def fileLe (f g : PdfFile) : Prop := f.name.data ≤ g.name.data

instance : DecidableRel fileLe := fun f g => by
  unfold fileLe; infer_instance

instance : IsTotal PdfFile fileLe := ⟨fun f g => le_total f.name.data g.name.data⟩

instance : IsTrans PdfFile fileLe := ⟨fun _ _ _ h h2 => le_trans h h2⟩

/-- Embedding of `load_documents` from `document_loader.py`.  `files` is the unordered
glob result (filename and parsed pages of each PDF); `enc` models the
tiktoken encoding.  Returns `(all_text, token_count, document_names)`. -/
def load_documents (enc : String → List Nat) (files : List PdfFile) :
    String × Nat × List String :=
  let ordered := List.insertionSort fileLe files
  let all_text := ordered.foldl (fun acc f => acc ++ docChunk f) ""
  (all_text, (enc all_text).length, ordered.map (fun f => f.name))

/-- Embedding of `count_tokens` from `document_loader.py`. -/
def count_tokens (enc : String → List Nat) (text : String) : Nat :=
  (enc text).length

/-- The record `query_model` returns for the `gpt-5` model when the invoke
call raises `"boom"` at elapsed time 0; a concrete evaluation fixture. -/
def errorResultSample : QueryResult :=
  { model := "GPT-5", response := "Error: boom", input_tokens := 0, output_tokens := 0,
    total_tokens := 0, cost := 0, time := 0, error := some "boom" }

lemma isInfixB_iff (pat s : List Char) : isInfixB pat s = true ↔ pat <:+: s := by
  induction s with
  | nil => simp [isInfixB, List.isPrefixOf_iff_prefix]
  | cons a t ih => simp [isInfixB, List.isPrefixOf_iff_prefix, ih, List.infix_cons_iff]

lemma get_model_mem (env : String → Option String) (m : String) (c : ModelConfig)
    (h : get_model env m = .ok c) : m ∈ knownModels := by
  unfold get_model at h
  split_ifs at h with h1 h2 h3 h4
  · subst h1; decide
  · subst h2; decide
  · subst h3; decide
  · subst h4; decide

lemma findPricing_of_mem (m : String) (h : m ∈ knownModels) : ∃ p, findPricing m = some p := by
  fin_cases h <;> exact ⟨_, rfl⟩

lemma findPricing_nonneg (m : String) (p : Pricing) (h : findPricing m = some p) :
    0 ≤ p.input ∧ 0 ≤ p.output := by
  unfold findPricing MODEL_PRICING at h
  simp only [List.lookup] at h
  split at h
  · obtain rfl : _ = p := Option.some.inj h; constructor <;> norm_num
  · split at h
    · obtain rfl : _ = p := Option.some.inj h; constructor <;> norm_num
    · split at h
      · obtain rfl : _ = p := Option.some.inj h; constructor <;> norm_num
      · split at h
        · obtain rfl : _ = p := Option.some.inj h; constructor <;> norm_num
        · cases h

lemma costOf_nonneg (p : Pricing) (i o : Nat) (h1 : 0 ≤ p.input) (h2 : 0 ≤ p.output) :
    0 ≤ costOf p i o := by
  unfold costOf
  have : (0:ℚ) ≤ (i : ℚ) / 1000000 := by positivity
  have : (0:ℚ) ≤ (o : ℚ) / 1000000 := by positivity
  exact add_nonneg (mul_nonneg (by positivity) h1) (mul_nonneg (by positivity) h2)

lemma query_model_ok (env : String → Option String) (m : String) (c : ModelConfig)
    (inv : Except String ModelResponse) (t : ℚ) (h : get_model env m = .ok c) :
    (query_model env m inv t).toOption.isSome = true := by
  obtain ⟨p, hp⟩ := findPricing_of_mem m (get_model_mem env m c h)
  unfold query_model
  rw [h]
  cases inv <;> simp [hp, Except.toOption, Except.map]

/-- C1 (amended): once `get_model` succeeds, `query_model` always returns a
normal `QueryResult`, and any failure of `model.invoke` is converted into a
record whose error field carries the classified message; an unknown model
identifier, however, makes `get_model` raise before the `try` block, and
that `ValueError` propagates uncaught. -/
theorem C1_invoke_failures_caught (env : String → Option String) (m : String)
    (c : ModelConfig) (inv : Except String ModelResponse) (t : ℚ)
    (h : get_model env m = .ok c) :
    (query_model env m inv t).toOption.isSome = true ∧
    ∀ e, inv = .error e →
      (query_model env m inv t).map (fun r => r.error) = .ok (some (classifyError e)) := by
  obtain ⟨p, hp⟩ := findPricing_of_mem m (get_model_mem env m c h)
  refine ⟨query_model_ok env m c inv t h, ?_⟩
  rintro e rfl
  unfold query_model
  rw [h]
  simp [hp, Except.map]

theorem C1_witness :
    (query_model (fun _ => none) "gpt-5" (Except.error "boom") 0).toOption.isSome = true ∧
    (query_model (fun _ => none) "gpt-5" (Except.error "boom") 0).map (fun r => r.error) =
      Except.ok (some (classifyError "boom")) := by
  have h := C1_invoke_failures_caught (fun _ => none) "gpt-5"
    { provider := .openai, model := "gpt-5", temperature := 0, api_key := none, base_url := none }
    (Except.error "boom") 0 rfl
  exact ⟨h.1, h.2 "boom" rfl⟩

theorem C1_counterexample :
    query_model (fun _ => none) "nonexistent-model"
      (Except.ok { content := "hi", token_usage := none, usage_metadata := none }) 0 =
    Except.error "Unknown model: nonexistent-model" := rfl

/-- C2: `get_model` configures each of the four known identifiers with
temperature 0 and the correct provider/credential pairing (the v3.1 alias
shares the model name of `deepseek-chat` but uses the versioned base URL),
and fails with the Unknown-model `ValueError` for every other identifier. -/
theorem C2_get_model_characterization (env : String → Option String) :
    get_model env "gpt-5" =
      .ok { provider := .openai, model := "gpt-5", temperature := 0,
            api_key := env "OPENAI_API_KEY", base_url := none } ∧
    get_model env "claude-sonnet-4-5-20250929" =
      .ok { provider := .anthropic, model := "claude-sonnet-4-5-20250929", temperature := 0,
            api_key := env "ANTHROPIC_API_KEY", base_url := none } ∧
    get_model env "deepseek-chat" =
      .ok { provider := .openai, model := "deepseek-chat", temperature := 0,
            api_key := env "DEEPSEEK_API_KEY", base_url := some "https://api.deepseek.com" } ∧
    get_model env "deepseek-chat-v3.1" =
      .ok { provider := .openai, model := "deepseek-chat", temperature := 0,
            api_key := env "DEEPSEEK_API_KEY",
            base_url := some "https://api.deepseek.com/v3.1_terminus_expires_on_20251015" } ∧
    ∀ m, m ∉ knownModels → get_model env m = .error ("Unknown model: " ++ m) := by
  refine ⟨rfl, rfl, rfl, rfl, ?_⟩
  intro m hm
  unfold get_model
  split_ifs with h1 h2 h3 h4
  · exact absurd (h1 ▸ (by decide : ("gpt-5" : String) ∈ knownModels)) hm
  · exact absurd (h2 ▸ (by decide : ("claude-sonnet-4-5-20250929" : String) ∈ knownModels)) hm
  · exact absurd (h3 ▸ (by decide : ("deepseek-chat" : String) ∈ knownModels)) hm
  · exact absurd (h4 ▸ (by decide : ("deepseek-chat-v3.1" : String) ∈ knownModels)) hm
  · rfl

theorem C2_witness :
    get_model (fun _ => none) "gpt-4" = Except.error "Unknown model: gpt-4" :=
  (C2_get_model_characterization (fun _ => none)).2.2.2.2 "gpt-4" (by decide)

/-- C3: token extraction accepts the nested `token_usage` shape and the flat
`usage_metadata` shape; the flat shape with 100/50 yields total 150, cost
`calculate_cost m 100 50` and no error; with neither shape present all
counts and the cost are zero and there is still no error. -/
theorem C3_usage_extraction (env : String → Option String) (m : String) (c : ModelConfig)
    (t : ℚ) (h : get_model env m = .ok c) :
    (∀ content i o um,
      (query_model env m (.ok { content := content, token_usage := some { prompt_tokens := some i, completion_tokens := some o }, usage_metadata := um }) t).map
          (fun r => (r.input_tokens, r.output_tokens)) = .ok (i, o)) ∧
    (∀ content,
      (query_model env m (.ok { content := content, token_usage := none, usage_metadata := some { input_tokens := some 100, output_tokens := some 50 } }) t).map
          (fun r => (r.total_tokens, some r.cost, r.error)) =
        .ok (150, calculate_cost m 100 50, none)) ∧
    (∀ content,
      (query_model env m (.ok { content := content, token_usage := none, usage_metadata := none }) t).map
          (fun r => (r.input_tokens, r.output_tokens, r.total_tokens, r.cost, r.error)) =
        .ok (0, 0, 0, 0, none)) := by
  obtain ⟨p, hp⟩ := findPricing_of_mem m (get_model_mem env m c h)
  refine ⟨?_, ?_, ?_⟩
  · intro content i o um
    unfold query_model
    rw [h]
    simp [hp, Except.map, extractUsage]
  · intro content
    unfold query_model
    rw [h]
    simp [hp, Except.map, extractUsage, calculate_cost]
  · intro content
    unfold query_model
    rw [h]
    simp [hp, Except.map, extractUsage, costOf]

theorem C3_witness :
    ((query_model (fun _ => none) "gpt-5" (Except.ok { content := "hi", token_usage := some { prompt_tokens := some 7, completion_tokens := some 9 }, usage_metadata := none }) 0).map
        (fun r => (r.input_tokens, r.output_tokens)) = Except.ok (7, 9)) ∧
    ((query_model (fun _ => none) "gpt-5" (Except.ok { content := "hi", token_usage := none, usage_metadata := some { input_tokens := some 100, output_tokens := some 50 } }) 0).map
        (fun r => (r.total_tokens, some r.cost, r.error)) =
      Except.ok (150, calculate_cost "gpt-5" 100 50, none)) ∧
    ((query_model (fun _ => none) "gpt-5" (Except.ok { content := "hi", token_usage := none, usage_metadata := none }) 0).map
        (fun r => (r.input_tokens, r.output_tokens, r.total_tokens, r.cost, r.error)) =
      Except.ok (0, 0, 0, 0, none)) := by
  have h := C3_usage_extraction (fun _ => none) "gpt-5"
    { provider := .openai, model := "gpt-5", temperature := 0, api_key := none, base_url := none }
    0 rfl
  exact ⟨h.1 "hi" 7 9 none, h.2.1 "hi", h.2.2 "hi"⟩

/-- C4: for every model in the pricing table, `calculate_cost` is the exact
rational sum of per-million prices scaled by the token counts, so one
million tokens of each kind cost exactly the sum of the two prices and zero
tokens cost exactly zero. -/
theorem C4_calculate_cost_formula (m : String) (p : Pricing) (i o : Nat)
    (h : findPricing m = some p) :
    calculate_cost m i o =
      some ((i : ℚ) / 1000000 * p.input + (o : ℚ) / 1000000 * p.output) ∧
    calculate_cost m 1000000 1000000 = some (p.input + p.output) ∧
    calculate_cost m 0 0 = some 0 := by
  refine ⟨by simp [calculate_cost, h, costOf], ?_, ?_⟩
  · simp only [calculate_cost, h, Option.map_some, costOf]
    norm_num
  · simp only [calculate_cost, h, Option.map_some, costOf]
    norm_num

theorem C4_witness :
    calculate_cost "deepseek-chat" 3 5 =
      some ((3 : ℚ) / 1000000 * (0.28 : ℚ) + (5 : ℚ) / 1000000 * (0.42 : ℚ)) ∧
    calculate_cost "deepseek-chat" 1000000 1000000 = some ((0.28 : ℚ) + (0.42 : ℚ)) ∧
    calculate_cost "deepseek-chat" 0 0 = some 0 :=
  C4_calculate_cost_formula "deepseek-chat"
    { input := 0.28, output := 0.42, name := "DeepSeek v3.2-Exp" } 3 5 rfl

/-- C5: every `QueryResult` produced by `query_model` has
`total_tokens = input_tokens + output_tokens`, a non-negative cost, and its
error field is populated exactly when the response text is the error
message behind an `"Error: "` marker and every token count and the cost are
zero. -/
theorem C5_result_invariants (env : String → Option String) (m : String)
    (inv : Except String ModelResponse) (t : ℚ) (r : QueryResult)
    (h : query_model env m inv t = .ok r) :
    r.total_tokens = r.input_tokens + r.output_tokens ∧
    0 ≤ r.cost ∧
    (r.error.isSome = true ↔ ∃ e, r.error = some e ∧ r.response = "Error: " ++ e ∧
      r.input_tokens = 0 ∧ r.output_tokens = 0 ∧ r.total_tokens = 0 ∧ r.cost = 0) := by
  unfold query_model at h
  split at h
  · cases h
  · split at h
    · split at h
      · cases h
      · rename_i pricing hp
        obtain rfl : _ = r := Except.ok.inj h
        refine ⟨rfl, ?_, ?_⟩
        · obtain ⟨h1, h2⟩ := findPricing_nonneg m pricing hp
          exact costOf_nonneg pricing _ _ h1 h2
        · simp
    · split at h
      · cases h
      · obtain rfl : _ = r := Except.ok.inj h
        refine ⟨by simp, le_refl 0, ?_⟩
        simp

theorem C5_witness :
    errorResultSample.total_tokens = errorResultSample.input_tokens + errorResultSample.output_tokens ∧
    0 ≤ errorResultSample.cost ∧
    (errorResultSample.error.isSome = true ↔ ∃ e, errorResultSample.error = some e ∧
      errorResultSample.response = "Error: " ++ e ∧ errorResultSample.input_tokens = 0 ∧
      errorResultSample.output_tokens = 0 ∧ errorResultSample.total_tokens = 0 ∧
      errorResultSample.cost = 0) :=
  C5_result_invariants (fun _ => none) "gpt-5" (Except.error "boom") 0 errorResultSample rfl

lemma classifyError_balance (e : String)
    (he : containsSub e "402" = true ∨ containsSub e "Insufficient Balance" = true) :
    classifyError e =
      "Insufficient Balance - Please add credits to your DeepSeek account at https://platform.deepseek.com" := by
  unfold classifyError
  rcases he with he | he <;> simp [he]

/-- C6: whenever the invoke call raises a message containing `"402"` or
`"Insufficient Balance"`, the error of the returned record is the balance
instruction (which contains `"Insufficient Balance"` and points at the
provider billing page) and all token counts and the cost are zero. -/
theorem C6_balance_classification (env : String → Option String) (m : String)
    (c : ModelConfig) (t : ℚ) (e : String) (h : get_model env m = .ok c)
    (he : containsSub e "402" = true ∨ containsSub e "Insufficient Balance" = true) :
    (query_model env m (.error e) t).map
        (fun r => (r.error, r.cost, r.input_tokens, r.output_tokens, r.total_tokens)) =
      .ok (some (classifyError e), 0, 0, 0, 0) ∧
    containsSub (classifyError e) "Insufficient Balance" = true ∧
    containsSub (classifyError e) "https://platform.deepseek.com" = true := by
  obtain ⟨p, hp⟩ := findPricing_of_mem m (get_model_mem env m c h)
  refine ⟨?_, ?_, ?_⟩
  · unfold query_model
    rw [h]
    simp [hp, Except.map]
  · rw [classifyError_balance e he]; decide
  · rw [classifyError_balance e he]; decide

theorem C6_witness :
    ((query_model (fun _ => none) "deepseek-chat" (Except.error "Error code: 402") 0).map
        (fun r => (r.error, r.cost, r.input_tokens, r.output_tokens, r.total_tokens)) =
      Except.ok (some (classifyError "Error code: 402"), 0, 0, 0, 0)) ∧
    containsSub (classifyError "Error code: 402") "Insufficient Balance" = true ∧
    containsSub (classifyError "Error code: 402") "https://platform.deepseek.com" = true :=
  C6_balance_classification (fun _ => none) "deepseek-chat"
    { provider := .openai, model := "deepseek-chat", temperature := 0, api_key := none,
      base_url := some "https://api.deepseek.com" }
    0 "Error code: 402" rfl (Or.inl (by decide))

theorem C7_counterexample :
    containsSub "401 after 402" "401" = true ∧
    (query_model (fun _ => none) "deepseek-chat" (Except.error "401 after 402") 0).map
        (fun r => r.error) =
      Except.ok (some "Insufficient Balance - Please add credits to your DeepSeek account at https://platform.deepseek.com") ∧
    containsSub
      "Insufficient Balance - Please add credits to your DeepSeek account at https://platform.deepseek.com"
      "Invalid API key" = false :=
  ⟨by decide, rfl, by decide⟩

/-- C7 (amended): a raised message containing `"401"` or `"Unauthorized"`
is rewritten to the invalid-API-key instruction provided it matches neither
balance pattern (`"402"` / `"Insufficient Balance"`, which are tested
first); a message matching none of the four patterns is passed through
unchanged as the error. -/
theorem C7_auth_classification (env : String → Option String) (m : String)
    (c : ModelConfig) (t : ℚ) (e : String) (h : get_model env m = .ok c)
    (h402 : containsSub e "402" = false)
    (hbal : containsSub e "Insufficient Balance" = false) :
    ((containsSub e "401" = true ∨ containsSub e "Unauthorized" = true) →
      (query_model env m (.error e) t).map (fun r => r.error) =
        .ok (some "Invalid API key - Please check your API key in .env file") ∧
      containsSub (classifyError e) "Invalid API key" = true) ∧
    ((containsSub e "401" = false ∧ containsSub e "Unauthorized" = false) →
      (query_model env m (.error e) t).map (fun r => r.error) = .ok (some e)) := by
  obtain ⟨p, hp⟩ := findPricing_of_mem m (get_model_mem env m c h)
  have hmsg : ∀ s : String, classifyError e = s → (query_model env m (.error e) t).map (fun r => r.error) = .ok (some s) := by
    intro s hs
    unfold query_model
    rw [h]
    simp [hp, Except.map, hs]
  constructor
  · intro hauth
    have hc : classifyError e = "Invalid API key - Please check your API key in .env file" := by
      unfold classifyError
      rcases hauth with ha | ha <;> simp [h402, hbal, ha]
    exact ⟨hmsg _ hc, by rw [hc]; decide⟩
  · rintro ⟨h401, hun⟩
    have hc : classifyError e = e := by
      unfold classifyError
      simp [h402, hbal, h401, hun]
    exact hmsg _ hc

theorem C7_witness :
    ((query_model (fun _ => none) "deepseek-chat" (Except.error "401 Unauthorized") 0).map
        (fun r => r.error) =
      Except.ok (some "Invalid API key - Please check your API key in .env file")) ∧
    containsSub (classifyError "401 Unauthorized") "Invalid API key" = true :=
  (C7_auth_classification (fun _ => none) "deepseek-chat"
    { provider := .openai, model := "deepseek-chat", temperature := 0, api_key := none,
      base_url := some "https://api.deepseek.com" }
    0 "401 Unauthorized" rfl (by decide) (by decide)).1 (Or.inl (by decide))

/-- C8: the balance check returns the parsed body exactly on HTTP 200; a
non-200 status, a transport exception or a body-parse failure all collapse
to `none`; and a missing (or empty) credential returns `none` with the
network call never attempted. -/
theorem C8_check_balance (env : String → Option String) (http : Except String HttpResponse) :
    (env "DEEPSEEK_API_KEY" = none → check_deepseek_balance env http = (none, false)) ∧
    (env "DEEPSEEK_API_KEY" = some "" → check_deepseek_balance env http = (none, false)) ∧
    (∀ key resp body, env "DEEPSEEK_API_KEY" = some key → key ≠ "" → http = .ok resp →
      resp.status = 200 → resp.json = .ok body →
      check_deepseek_balance env http = (some body, true)) ∧
    (∀ resp, http = .ok resp → resp.status ≠ 200 → (check_deepseek_balance env http).1 = none) ∧
    (∀ ex, http = .error ex → (check_deepseek_balance env http).1 = none) ∧
    (∀ resp ex, http = .ok resp → resp.json = .error ex → (check_deepseek_balance env http).1 = none) := by
  refine ⟨?_, ?_, ?_, ?_, ?_, ?_⟩
  · intro henv; simp [check_deepseek_balance, henv]
  · intro henv; simp [check_deepseek_balance, henv]
  · rintro key resp body henv hk rfl hs hb
    simp [check_deepseek_balance, henv, hk, hs, hb]
  · rintro resp rfl hs
    unfold check_deepseek_balance
    cases henv : env "DEEPSEEK_API_KEY" with
    | none => rfl
    | some key =>
      by_cases hk : key = "" <;> simp [hk, hs]
  · rintro ex rfl
    unfold check_deepseek_balance
    cases henv : env "DEEPSEEK_API_KEY" with
    | none => rfl
    | some key => by_cases hk : key = "" <;> simp [hk]
  · rintro resp ex rfl hb
    unfold check_deepseek_balance
    cases henv : env "DEEPSEEK_API_KEY" with
    | none => rfl
    | some key =>
      by_cases hk : key = "" <;> simp [hk, hb]

theorem C8_witness :
    check_deepseek_balance (fun _ => none) (Except.error "network down") = (none, false) ∧
    check_deepseek_balance (fun _ => some "sk-1") (Except.ok { status := 200, json := Except.ok "balance-body" }) = (some "balance-body", true) ∧
    (check_deepseek_balance (fun _ => some "sk-1") (Except.ok { status := 500, json := Except.ok "err" })).1 = none :=
  ⟨(C8_check_balance (fun _ => none) (Except.error "network down")).1 rfl,
   (C8_check_balance (fun _ => some "sk-1") (Except.ok { status := 200, json := Except.ok "balance-body" })).2.2.1
      "sk-1" { status := 200, json := Except.ok "balance-body" } "balance-body" rfl (by decide) rfl rfl rfl,
   (C8_check_balance (fun _ => some "sk-1") (Except.ok { status := 500, json := Except.ok "err" })).2.2.2.1
      { status := 500, json := Except.ok "err" } rfl (by decide)⟩

/-- C10: when a successful response carries both usage shapes, the counts
are read from the `token_usage` entry alone, and a key missing inside
`token_usage` defaults to zero instead of falling back to
`usage_metadata`. -/
theorem C10_shape_precedence (env : String → Option String) (m : String)
    (c : ModelConfig) (t : ℚ) (h : get_model env m = .ok c) :
    (∀ content tu um,
      (query_model env m (.ok { content := content, token_usage := some tu, usage_metadata := some um }) t).map
          (fun r => (r.input_tokens, r.output_tokens)) =
        .ok (tu.prompt_tokens.getD 0, tu.completion_tokens.getD 0)) ∧
    (∀ content um,
      (query_model env m (.ok { content := content, token_usage := some { prompt_tokens := none, completion_tokens := none }, usage_metadata := some um }) t).map
          (fun r => (r.input_tokens, r.output_tokens)) = .ok (0, 0)) := by
  obtain ⟨p, hp⟩ := findPricing_of_mem m (get_model_mem env m c h)
  constructor
  · intro content tu um
    unfold query_model
    rw [h]
    simp [hp, Except.map, extractUsage]
  · intro content um
    unfold query_model
    rw [h]
    simp [hp, Except.map, extractUsage]

theorem C10_witness :
    ((query_model (fun _ => none) "gpt-5"
        (Except.ok { content := "hi",
                     token_usage := some { prompt_tokens := some 1, completion_tokens := some 2 },
                     usage_metadata := some { input_tokens := some 7, output_tokens := some 9 } }) 0).map
        (fun r => (r.input_tokens, r.output_tokens)) = Except.ok (1, 2)) ∧
    ((query_model (fun _ => none) "gpt-5"
        (Except.ok { content := "hi",
                     token_usage := some { prompt_tokens := none, completion_tokens := none },
                     usage_metadata := some { input_tokens := some 7, output_tokens := some 9 } }) 0).map
        (fun r => (r.input_tokens, r.output_tokens)) = Except.ok (0, 0)) := by
  have h := C10_shape_precedence (fun _ => none) "gpt-5"
    { provider := .openai, model := "gpt-5", temperature := 0, api_key := none, base_url := none }
    0 rfl
  exact ⟨h.1 "hi" { prompt_tokens := some 1, completion_tokens := some 2 }
            { input_tokens := some 7, output_tokens := some 9 },
         h.2 "hi" { input_tokens := some 7, output_tokens := some 9 }⟩

lemma data_prefix_foldl (l : List PdfFile) (acc : String) :
    acc.data <+: (l.foldl (fun a g => a ++ docChunk g) acc).data := by
  induction l generalizing acc with
  | nil => exact List.prefix_refl _
  | cons g t ih =>
    refine List.IsPrefix.trans ?_ (ih (acc ++ docChunk g))
    rw [String.data_append]
    exact List.prefix_append _ _

lemma chunk_infix_foldl (l : List PdfFile) (acc : String) (f : PdfFile) (hf : f ∈ l) :
    (docChunk f).data <:+: (l.foldl (fun a g => a ++ docChunk g) acc).data := by
  induction l generalizing acc with
  | nil => cases hf
  | cons g t ih =>
    rcases List.mem_cons.mp hf with rfl | hmem
    · refine List.IsInfix.trans ?_ (data_prefix_foldl t (acc ++ docChunk f)).isInfix
      rw [String.data_append]
      exact (List.suffix_append _ _).isInfix
    · exact ih (acc ++ docChunk g) hmem

lemma header_infix_chunk (f : PdfFile) :
    ("=== Document: " ++ f.name ++ " ===").data <:+: (docChunk f).data := by
  have hsplit : (docChunk f).data =
      ("\n\n").data ++ ("=== Document: " ++ f.name ++ " ===").data ++ ("\n\n" ++ docText f).data := by
    unfold docChunk
    simp only [String.data_append, List.append_assoc]
    rfl
  rw [hsplit]
  exact List.infix_append _ _ _

lemma join_cons_str (x : String) (xs : List String) :
    String.join (x :: xs) = x ++ String.join xs := by
  apply String.ext
  simp [String.join_eq, String.data_append]

lemma foldl_append_join (l : List PdfFile) (acc : String) :
    l.foldl (fun a f => a ++ docChunk f) acc = acc ++ String.join (l.map docChunk) := by
  induction l generalizing acc with
  | nil => simp [String.join]
  | cons f t ih =>
    simp only [List.foldl_cons, List.map_cons, join_cons_str]
    rw [ih, String.append_assoc]

/-- C9: the context returned by `load_documents` is exactly the
concatenation, over a filename-sorted permutation of the PDFs of the
directory, of each header-plus-page-text chunk; the returned count is the
token count of that context and the returned names are the names in the
same sorted order; the names are therefore sorted and a permutation of the
input names and the context carries the literal
`=== Document: <filename> ===` header of each file; a directory without
PDFs yields context `""`, an empty name sequence and (as the tokenizer
encodes `""` to no tokens) token count zero. -/
theorem C9_load_documents (enc : String → List Nat) (files : List PdfFile) :
    (∃ ordered : List PdfFile, ordered.Perm files ∧ List.Sorted fileLe ordered ∧
      (load_documents enc files).1 = String.join (ordered.map docChunk) ∧
      (load_documents enc files).2.2 = ordered.map fun f => f.name) ∧
    (load_documents enc files).2.1 = (enc (load_documents enc files).1).length ∧
    List.Sorted (· ≤ ·) ((load_documents enc files).2.2.map String.data) ∧
    ((load_documents enc files).2.2.Perm (files.map fun f => f.name)) ∧
    (∀ f, f ∈ files →
      containsSub (load_documents enc files).1 ("=== Document: " ++ f.name ++ " ===") = true) ∧
    (files = [] → enc "" = [] → load_documents enc files = ("", 0, [])) := by
  refine ⟨⟨List.insertionSort fileLe files, List.perm_insertionSort fileLe files,
          List.sorted_insertionSort fileLe files, ?_, rfl⟩, rfl, ?_, ?_, ?_, ?_⟩
  · show (List.insertionSort fileLe files).foldl (fun a f => a ++ docChunk f) "" = _
    rw [foldl_append_join]
    apply String.ext
    simp [String.data_append]
  · have hs := List.sorted_insertionSort fileLe files
    unfold load_documents
    simp only [List.map_map]
    exact List.Pairwise.map _ (fun a b hab => hab) hs
  · have hp := List.perm_insertionSort fileLe files
    exact hp.map fun f => f.name
  · intro f hf
    have hmem : f ∈ List.insertionSort fileLe files :=
      (List.perm_insertionSort fileLe files).mem_iff.mpr hf
    unfold load_documents containsSub
    rw [isInfixB_iff]
    exact (header_infix_chunk f).trans (chunk_infix_foldl _ "" f hmem)
  · rintro rfl henc
    simp [load_documents, henc]

theorem C9_witness :
    (∃ ordered : List PdfFile, ordered.Perm
        [ { name := "b.pdf", pages := ["B1"] }, { name := "a.pdf", pages := ["A1", "A2"] } ] ∧
      List.Sorted fileLe ordered ∧
      (load_documents (fun _ => [])
        [ { name := "b.pdf", pages := ["B1"] }, { name := "a.pdf", pages := ["A1", "A2"] } ]).1 =
        String.join (ordered.map docChunk) ∧
      (load_documents (fun _ => [])
        [ { name := "b.pdf", pages := ["B1"] }, { name := "a.pdf", pages := ["A1", "A2"] } ]).2.2 =
        ordered.map fun f => f.name) ∧
    (load_documents (fun _ => [])
      [ { name := "b.pdf", pages := ["B1"] }, { name := "a.pdf", pages := ["A1", "A2"] } ]).2.1 =
      ((fun _ => ([] : List Nat)) (load_documents (fun _ => [])
        [ { name := "b.pdf", pages := ["B1"] }, { name := "a.pdf", pages := ["A1", "A2"] } ]).1).length ∧
    List.Sorted (· ≤ ·) ((load_documents (fun _ => [])
      [ { name := "b.pdf", pages := ["B1"] }, { name := "a.pdf", pages := ["A1", "A2"] } ]).2.2.map String.data) ∧
    ((load_documents (fun _ => [])
      [ { name := "b.pdf", pages := ["B1"] }, { name := "a.pdf", pages := ["A1", "A2"] } ]).2.2.Perm
        ["b.pdf", "a.pdf"]) ∧
    containsSub (load_documents (fun _ => [])
      [ { name := "b.pdf", pages := ["B1"] }, { name := "a.pdf", pages := ["A1", "A2"] } ]).1
      "=== Document: a.pdf ===" = true ∧
    load_documents (fun _ => []) ([] : List PdfFile) = ("", 0, []) := by
  have h := C9_load_documents (fun _ => [])
    [ { name := "b.pdf", pages := ["B1"] }, { name := "a.pdf", pages := ["A1", "A2"] } ]
  have h0 := C9_load_documents (fun _ => []) ([] : List PdfFile)
  exact ⟨h.1, h.2.1, h.2.2.1, h.2.2.2.1, h.2.2.2.2.1 { name := "a.pdf", pages := ["A1", "A2"] }
           (List.mem_cons.mpr (Or.inr (List.mem_cons_self _ _))), h0.2.2.2.2.2 rfl rfl⟩

end MultiDocQA
